import Mathlib

/-!
Verification of the `infraoutput` repository specification.

The repository contains two small web backends:
* `src/petsphere-backend-complete.py` — a FastAPI "pet management" backend
  (settings, a session-scoped unit of work, a bearer-token authorization
  dependency, a Redis-backed fixed-window rate limiter, upload validation and
  content-addressed photo storage);
* `src/app.py` — a Flask host-metrics service backed by a MongoDB collection.

Each Python function relevant to the frozen claims is embedded shallowly:
pure fragments become Lean functions, the Redis store / MongoDB collection /
upload directory become explicit state values threaded through the functions,
exceptions become `Except` values, and external calls whose code is not part
of the repository (`verify_token`, `pet_crud.create`, `psutil`/`socket`
probes) become parameters or spec-modelled inputs.
-/

namespace PetSphere

/-- Embedding of `Settings` (app/core/config.py): only the fields that the
claims touch, with the defaults given in the source. -/
structure Settings where
  RATE_LIMIT_PER_MINUTE : Nat := 60
  MAX_UPLOAD_SIZE : Nat := 5242880
  ALLOWED_FILE_TYPES : List String := ["image/jpeg", "image/png", "application/pdf"]
deriving DecidableEq

/-- The module-level `settings = Settings()` object with all defaults. -/
def settings : Settings := {}

/-- Python exceptions as they matter to the embedded code: FastAPI
`HTTPException(status_code, detail)` and any other exception carrying its
message. -/
inductive Exc where
  | httpException (status_code : Nat) (detail : String)
  | other (msg : String)
deriving DecidableEq

/-- Python `str(e)`: Starlette's `HTTPException.__str__` renders
`f"{status_code}: {detail}"`; a generic exception renders its message. -/
def excStr : Exc → String
  | Exc.httpException s d => toString s ++ ": " ++ d
  | Exc.other m => m

/-- Association-list update with string keys: used for the Redis store
(`SET`/`INCR` result), the Redis TTL table (`EXPIRE`) and the upload
directory (file write). Overwrites an existing binding. -/
def setKV {α : Type} : List (String × α) → String → α → List (String × α)
  | [], k, v => [(k, v)]
  | (k0, v0) :: rest, k, v =>
    if k0 == k then (k, v) :: rest else (k0, v0) :: setKV rest k v

/-- Association-list lookup returning `Option`. -/
def lookupKV {α : Type} : List (String × α) → String → Option α
  | [], _ => none
  | (k0, v0) :: rest, k => if k0 == k then some v0 else lookupKV rest k

/-- Redis counter read: a missing key counts as 0 (the behaviour `INCR`
relies on). -/
def getKV (l : List (String × Nat)) (k : String) : Nat :=
  (lookupKV l k).getD 0

/-- The Redis state visible to `check_rate_limit`: the counters and the
per-key time-to-live set by `EXPIRE`. -/
structure Redis where
  store : List (String × Nat)
  ttl : List (String × Nat)
deriving DecidableEq

/-- The key `f"rate_limit:{user_id}:{current // 60}"` built in
`check_rate_limit`, with `current = int(time.time())` passed in as `now`. -/
def rateKey (user_id : Nat) (now : Nat) : String :=
  "rate_limit:" ++ toString user_id ++ ":" ++ toString (now / 60)

/-- Embedding of `check_rate_limit` (app/api/deps.py, lines 120-129): a
pipelined `INCR key` / `EXPIRE key 90`, returning whether the post-increment
count is within `settings.RATE_LIMIT_PER_MINUTE`.  The wall clock
`int(time.time())` is the explicit parameter `now`. -/
def check_rate_limit (s : Settings) (user_id : Nat) (now : Nat) (r : Redis) :
    Bool × Redis :=
  let key := rateKey user_id now
  let newVal := getKV r.store key + 1
  let store2 := setKV r.store key newVal
  let ttl2 := setKV r.ttl key 90
  (decide (newVal ≤ s.RATE_LIMIT_PER_MINUTE), ⟨store2, ttl2⟩)

/-- Issuing `N` back-to-back requests by one user inside one 60-second bucket
(fixed `now`), counting how many the limiter permits. -/
def runRequests (s : Settings) (user_id : Nat) (now : Nat) : Nat → Redis → Nat
  | 0, _ => 0
  | n + 1, r =>
    let res := check_rate_limit s user_id now r
    (if res.1 then 1 else 0) + runRequests s user_id now n res.2

/-- The `User` ORM model (app/models/user.py is not under src/); only the
primary key `id`, which is all `get_current_user` reads, is embedded. -/
structure User where
  id : Nat
deriving DecidableEq

/-- Observable side steps of `get_current_user`: the `db.query(User)` lookup
and the `check_rate_limit` call. -/
inductive AuthEv where
  | dbLookup
  | rateCheck
deriving DecidableEq, BEq

/-- The `try` body of `get_current_user` (app/api/deps.py, lines 135-151):
verify the token, look the user up by the token's subject (404 if absent),
check the rate limit (429 if exceeded), return the user.  The outcome of
`verify_token(token)` is passed in as `verify`; the session's user table as
the list `db`.  Also returns the Redis state and the trace of side steps. -/
def get_current_user_body (verify : Except Exc Nat) (db : List User)
    (s : Settings) (now : Nat) (r : Redis) :
    Except Exc User × Redis × List AuthEv :=
  match verify with
  | Except.error e => (Except.error e, r, [])
  | Except.ok sub =>
    match db.find? (fun u => u.id == sub) with
    | none =>
      (Except.error (Exc.httpException 404 "User not found"), r, [AuthEv.dbLookup])
    | some user =>
      if (check_rate_limit s user.id now r).1 then
        (Except.ok user, (check_rate_limit s user.id now r).2,
          [AuthEv.dbLookup, AuthEv.rateCheck])
      else
        (Except.error (Exc.httpException 429 "Rate limit exceeded"),
          (check_rate_limit s user.id now r).2, [AuthEv.dbLookup, AuthEv.rateCheck])

/-- Embedding of `get_current_user` (app/api/deps.py, lines 131-156): the
`try` body wrapped in `except Exception as e: raise HTTPException(401, str(e))`. -/
def get_current_user (verify : Except Exc Nat) (db : List User)
    (s : Settings) (now : Nat) (r : Redis) :
    Except Exc User × Redis × List AuthEv :=
  match get_current_user_body verify db s now r with
  | (Except.ok u, r2, evs) => (Except.ok u, r2, evs)
  | (Except.error e, r2, evs) =>
    (Except.error (Exc.httpException 401 (excStr e)), r2, evs)

/-- Modelled from the spec: `verify_token` (app/core/security.py is not under
src/; spec §4.1): "given a bearer token string, returns a claims structure
containing at least a subject identifier, or fails with `Unauthorized` when
the signature is invalid, the token is expired, or required claims are
missing."  Tokens are classified as malformed, expired (each failing with an
exception carrying a message) or valid with a subject claim. -/
inductive Token where
  | malformed (msg : String)
  | expired (msg : String)
  | valid (sub : Nat)
deriving DecidableEq

/-- Modelled from the spec: the verification outcome for each `Token` class
(§4.1); malformed and expired tokens raise, valid tokens yield the subject. -/
def verify_token : Token → Except Exc Nat
  | Token.malformed msg => Except.error (Exc.other msg)
  | Token.expired msg => Except.error (Exc.other msg)
  | Token.valid sub => Except.ok sub

/-- An `UploadFile` as `validate_file` sees it: the declared content type,
the original filename and the content bytes (each a `Nat < 256`). -/
structure UploadFile where
  filename : String
  content_type : String
  data : List Nat
deriving DecidableEq

/-- Observable steps of `validate_file` on the file object:
`await file.read()`, the `len(content) > MAX_UPLOAD_SIZE` comparison, and
`await file.seek(pos)`. -/
inductive FileEv where
  | read
  | sizeCheck
  | seek (pos : Nat)
deriving DecidableEq, BEq

/-- A single-quote character, used by Python's `repr` of strings. -/
def squote : String := String.singleton (Char.ofNat 39)

/-- Python's rendering of a list of strings inside an f-string, as in
`f"... {settings.ALLOWED_FILE_TYPES}"`. -/
def pyStrList (l : List String) : String :=
  "[" ++ String.intercalate ", " (l.map (fun x => squote ++ x ++ squote)) ++ "]"

/-- Embedding of `validate_file` (app/api/v1/endpoints/pets.py, lines
173-188): reject a content type outside the allow-set (before reading any
content), read the content, reject a byte length over the maximum, otherwise
seek back to the start and return the content.  The second component is the
trace of steps performed on the file. -/
def validate_file (s : Settings) (file : UploadFile) :
    Except Exc (List Nat) × List FileEv :=
  if file.content_type ∉ s.ALLOWED_FILE_TYPES then
    (Except.error (Exc.httpException 400
      ("File type not allowed. Allowed types: " ++ pyStrList s.ALLOWED_FILE_TYPES)), [])
  else
    if file.data.length > s.MAX_UPLOAD_SIZE then
      (Except.error (Exc.httpException 400
        ("File size exceeds maximum allowed size of " ++
          toString s.MAX_UPLOAD_SIZE ++ " bytes")),
        [FileEv.read, FileEv.sizeCheck])
    else
      (Except.ok file.data, [FileEv.read, FileEv.sizeCheck, FileEv.seek 0])

/-! ### SHA-256 (`hashlib.sha256(content).hexdigest()`)

A direct embedding of the SHA-256 algorithm over byte lists, with 32-bit
words represented as `Nat` reduced mod `2 ^ 32`. -/

/-- Truncate to a 32-bit word. -/
def w32 (n : Nat) : Nat := n % 4294967296

/-- 32-bit modular addition. -/
def wadd (a b : Nat) : Nat := (a + b) % 4294967296

/-- 32-bit right rotation. -/
def rotr (n x : Nat) : Nat :=
  w32 (Nat.lor (Nat.shiftRight x n) (Nat.shiftLeft x (32 - n)))

/-- SHA-256 Σ₀. -/
def bigSigma0 (x : Nat) : Nat := Nat.xor (rotr 2 x) (Nat.xor (rotr 13 x) (rotr 22 x))

/-- SHA-256 Σ₁. -/
def bigSigma1 (x : Nat) : Nat := Nat.xor (rotr 6 x) (Nat.xor (rotr 11 x) (rotr 25 x))

/-- SHA-256 σ₀. -/
def smallSigma0 (x : Nat) : Nat :=
  Nat.xor (rotr 7 x) (Nat.xor (rotr 18 x) (Nat.shiftRight x 3))

/-- SHA-256 σ₁. -/
def smallSigma1 (x : Nat) : Nat :=
  Nat.xor (rotr 17 x) (Nat.xor (rotr 19 x) (Nat.shiftRight x 10))

/-- SHA-256 Ch, with bitwise-not as xor against the 32-bit mask. -/
def shaCh (x y z : Nat) : Nat :=
  Nat.xor (Nat.land x y) (Nat.land (Nat.xor x 4294967295) z)

/-- SHA-256 Maj. -/
def shaMaj (x y z : Nat) : Nat :=
  Nat.xor (Nat.land x y) (Nat.xor (Nat.land x z) (Nat.land y z))

/-- The 64 SHA-256 round constants (FIPS 180-4), written in decimal. -/
def shaK : List Nat :=
  [1116352408, 1899447441, 3049323471, 3921009573, 961987163,
   1508970993, 2453635748, 2870763221, 3624381080, 310598401,
   607225278, 1426881987, 1925078388, 2162078206, 2614888103,
   3248222580, 3835390401, 4022224774, 264347078, 604807628,
   770255983, 1249150122, 1555081692, 1996064986, 2554220882,
   2821834349, 2952996808, 3210313671, 3336571891, 3584528711,
   113926993, 338241895, 666307205, 773529912, 1294757372,
   1396182291, 1695183700, 1986661051, 2177026350, 2456956037,
   2730485921, 2820302411, 3259730800, 3345764771, 3516065817,
   3600352804, 4094571909, 275423344, 430227734, 506948616,
   659060556, 883997877, 958139571, 1322822218, 1537002063,
   1747873779, 1955562222, 2024104815, 2227730452, 2361852424,
   2428436474, 2756734187, 3204031479, 3329325298]

/-- The SHA-256 initial hash value (FIPS 180-4), written in decimal. -/
def shaH0 : List Nat :=
  [1779033703, 3144134277, 1013904242, 2773480762,
   1359893119, 2600822924, 528734635, 1541459225]

/-- SHA-256 padding: append `0x80`, zeros to 56 mod 64, then the bit length
as 8 big-endian bytes. -/
def padMessage (msg : List Nat) : List Nat :=
  let len := msg.length
  let zeros := (119 - len % 64) % 64
  let bitLen := len * 8
  msg ++ [128] ++ List.replicate zeros 0 ++
    (List.range 8).map (fun i => Nat.shiftRight bitLen (8 * (7 - i)) % 256)

/-- Group bytes into big-endian 32-bit words. -/
def bytesToWords : List Nat → List Nat
  | b0 :: b1 :: b2 :: b3 :: rest =>
    (b0 * 16777216 + b1 * 65536 + b2 * 256 + b3) :: bytesToWords rest
  | _ => []

/-- Extend the 16-word message schedule by the given number of words. -/
def extendW : Nat → List Nat → List Nat
  | 0, ws => ws
  | k + 1, ws =>
    let n := ws.length
    let newW := wadd (wadd (smallSigma1 (ws.getD (n - 2) 0)) (ws.getD (n - 7) 0))
                     (wadd (smallSigma0 (ws.getD (n - 15) 0)) (ws.getD (n - 16) 0))
    extendW k (ws ++ [newW])

/-- The eight SHA-256 working variables. -/
structure Hash8 where
  a : Nat
  b : Nat
  c : Nat
  d : Nat
  e : Nat
  f : Nat
  g : Nat
  h : Nat
deriving DecidableEq

/-- One SHA-256 compression round. -/
def shaRound (st : Hash8) (kt wt : Nat) : Hash8 :=
  let t1 := wadd (wadd (wadd st.h (bigSigma1 st.e)) (wadd (shaCh st.e st.f st.g) kt)) wt
  let t2 := wadd (bigSigma0 st.a) (shaMaj st.a st.b st.c)
  ⟨wadd t1 t2, st.a, st.b, st.c, wadd st.d t1, st.e, st.f, st.g⟩

/-- The 64 compression rounds, driven by the constant and schedule lists. -/
def shaRounds : List Nat → List Nat → Hash8 → Hash8
  | k :: ks, w :: ws, st => shaRounds ks ws (shaRound st k w)
  | _, _, st => st

/-- Compress one 64-byte block into the running eight-word hash state. -/
def compressBlock (hs : List Nat) (block : List Nat) : List Nat :=
  let ws := extendW 48 (bytesToWords block)
  let st0 : Hash8 :=
    ⟨hs.getD 0 0, hs.getD 1 0, hs.getD 2 0, hs.getD 3 0,
     hs.getD 4 0, hs.getD 5 0, hs.getD 6 0, hs.getD 7 0⟩
  let st := shaRounds shaK ws st0
  [wadd (hs.getD 0 0) st.a, wadd (hs.getD 1 0) st.b, wadd (hs.getD 2 0) st.c,
   wadd (hs.getD 3 0) st.d, wadd (hs.getD 4 0) st.e, wadd (hs.getD 5 0) st.f,
   wadd (hs.getD 6 0) st.g, wadd (hs.getD 7 0) st.h]

/-- Process the given number of 64-byte blocks. -/
def processBlocks : Nat → List Nat → List Nat → List Nat
  | 0, _, hs => hs
  | n + 1, bytes, hs => processBlocks n (bytes.drop 64) (compressBlock hs (bytes.take 64))

/-- Lowercase hex digit. -/
def hexDigit (n : Nat) : Char :=
  if n < 10 then Char.ofNat (48 + n) else Char.ofNat (87 + n)

/-- A 32-bit word as 8 hex characters. -/
def wordHex (w : Nat) : List Char :=
  (List.range 8).map (fun i => hexDigit (Nat.shiftRight w (4 * (7 - i)) % 16))

/-- Embedding of `hashlib.sha256(msg).hexdigest()`: the 64-character lowercase hex digest
of a byte list. -/
def sha256hex (msg : List Nat) : String :=
  let padded := padMessage msg
  let hs := processBlocks (padded.length / 64) padded shaH0
  String.mk (hs.map wordHex).flatten

/-! ### `os.path.splitext` and the derived storage filename -/

/-- Python `str.rfind` for a single character over a character list: the last
index at which the character occurs, or `-1`. -/
def rfindChar (c : Char) (l : List Char) : Int :=
  l.enum.foldl (fun acc p => if p.2 == c then Int.ofNat p.1 else acc) (-1)

/-- The `while` loop of `posixpath.splitext`: is there a character other than
a dot among the `k` characters starting at index `i`? -/
def hasNonDotFrom (l : List Char) (i : Nat) : Nat → Bool
  | 0 => false
  | k + 1 =>
    if l.getD i '.' != '.' then true else hasNonDotFrom l (i + 1) k

/-- Embedding of `os.path.splitext` (posixpath): split off the extension at
the last dot, unless that dot lies before the last separator or all the
characters between the separator and the dot are dots (a dotfile has no
extension). -/
def splitext (p : String) : String × String :=
  let l := p.data
  let sepIndex := rfindChar '/' l
  let dotIndex := rfindChar '.' l
  if sepIndex < dotIndex then
    let fi := (sepIndex + 1).toNat
    if hasNonDotFrom l fi (dotIndex.toNat - fi) then
      (String.mk (l.take dotIndex.toNat), String.mk (l.drop dotIndex.toNat))
    else (p, "")
  else (p, "")

/-- The storage filename derived in `create_pet` (pets.py, lines 202-204):
`f"{hashlib.sha256(content).hexdigest()}{os.path.splitext(photo.filename)[1]}"`. -/
def secure_filename (content : List Nat) (filename : String) : String :=
  sha256hex content ++ (splitext filename).2

/-- The pet payload: the fields of `PetCreate` that `create_pet` touches
(`photo_url` is assigned in the handler; descriptive fields are opaque). -/
structure PetCreate where
  name : String
  photo_url : Option String
deriving DecidableEq

/-- The response produced by `PetResponse.from_orm(db_pet)`: the persisted
pet as the CRUD layer returns it. -/
structure PetResponse where
  name : String
  photo_url : Option String
  owner_id : Nat
deriving DecidableEq

/-- The `try` body of `create_pet` (pets.py, lines 197-217): if a photo was
sent, validate it, derive the content-addressed filename, write the bytes to
`uploads/pets/<filename>` and set `pet.photo_url`; then persist through
`pet_crud.create` (app/crud/pet.py is not under src/, so its outcome is the
parameter `crud`).  The upload directory is the explicit state `st`, a map
from file path to bytes. -/
def create_pet_body (s : Settings) (pet : PetCreate) (photo : Option UploadFile)
    (crud : PetCreate → Nat → Except Exc PetResponse) (user : User)
    (st : List (String × List Nat)) :
    Except Exc PetResponse × List (String × List Nat) :=
  match photo with
  | none => (crud pet user.id, st)
  | some ph =>
    match (validate_file s ph).1 with
    | Except.error e => (Except.error e, st)
    | Except.ok content =>
      let secure := secure_filename content ph.filename
      let file_path := "uploads/pets/" ++ secure
      let st2 := setKV st file_path content
      let pet2 := { pet with photo_url := some ("/static/pets/" ++ secure) }
      (crud pet2 user.id, st2)

/-- Embedding of the `create_pet` route handler (pets.py, lines 190-224): the
`try` body wrapped in `except Exception: raise HTTPException(500, "Could not
create pet")`. -/
def create_pet (s : Settings) (pet : PetCreate) (photo : Option UploadFile)
    (crud : PetCreate → Nat → Except Exc PetResponse) (user : User)
    (st : List (String × List Nat)) :
    Except Exc PetResponse × List (String × List Nat) :=
  match create_pet_body s pet photo crud user st with
  | (Except.ok resp, st2) => (Except.ok resp, st2)
  | (Except.error _, st2) =>
    (Except.error (Exc.httpException 500 "Could not create pet"), st2)

/-- The session methods called by `get_db` on its exit paths. -/
inductive DBAction where
  | commit
  | rollback
  | close
deriving DecidableEq, BEq

/-- Embedding of the `get_db` context manager (app/db/session.py, lines
85-100): `work` is the outcome of the code run at the `yield` point.  On
normal completion the session is committed; on any exception (the
`SQLAlchemyError` branch and the generic branch behave identically apart from
the log line) it is rolled back and the exception re-raised; the `finally`
block closes the session on every path.  The second component is the ordered
trace of session calls. -/
def get_db (work : Except Exc Unit) : Except Exc Unit × List DBAction :=
  match work with
  | Except.ok _ => (Except.ok (), [DBAction.commit, DBAction.close])
  | Except.error e => (Except.error e, [DBAction.rollback, DBAction.close])

end PetSphere

namespace HostMetrics

/-- Round-half-to-even to an integer, Python's `round` on an exact value. -/
def roundHalfEven (q : ℚ) : ℤ :=
  if q - ⌊q⌋ < 1 / 2 then ⌊q⌋
  else if q - ⌊q⌋ > 1 / 2 then ⌊q⌋ + 1
  else if ⌊q⌋ % 2 = 0 then ⌊q⌋ else ⌊q⌋ + 1

/-- Python `round(x, 2)`: round to two decimal places (half to even).  The
source computes with binary floats; values are modelled as exact rationals. -/
def pyRound2 (q : ℚ) : ℚ := (roundHalfEven (q * 100) : ℚ) / 100

/-- The host environment probed by `get_system_info`: the values returned by
`socket.gethostname()`, `platform.system()`, `platform.version()`,
`platform.processor()`, `psutil.cpu_count(logical=False)`,
`psutil.cpu_count(logical=True)`, `psutil.virtual_memory().total` and
`psutil.disk_usage('/').total` (the last two in bytes). -/
structure SysEnv where
  hostname : String
  os : String
  os_version : String
  cpu : String
  cpu_cores : Nat
  cpu_threads : Nat
  memory_bytes : Nat
  disk_bytes : Nat
deriving DecidableEq

/-- A system-info document: the dict built by `get_system_info`, plus the
`_id` key that `collection.insert_one` adds to the very same dict (absent,
`none`, until insertion).  `some n` stands for a bson `ObjectId` — a value
Flask's JSON encoder cannot serialize — identified by its assignment index. -/
structure SystemInfo where
  hostname : String
  os : String
  os_version : String
  cpu : String
  cpu_cores : Nat
  cpu_threads : Nat
  memory_total : ℚ
  disk_total : ℚ
  mongoId : Option Nat
deriving DecidableEq

/-- Embedding of `get_system_info` (src/app.py, lines 14-25): gather the
host facts and convert memory and disk totals to gibibytes
(`total / (1024 ** 3)`) rounded to two decimal places. -/
def get_system_info (env : SysEnv) : SystemInfo :=
  { hostname := env.hostname
    os := env.os
    os_version := env.os_version
    cpu := env.cpu
    cpu_cores := env.cpu_cores
    cpu_threads := env.cpu_threads
    memory_total := pyRound2 ((env.memory_bytes : ℚ) / 1024 ^ 3)
    disk_total := pyRound2 ((env.disk_bytes : ℚ) / 1024 ^ 3)
    mongoId := none }

/-- The MongoDB collection `db["infraoutput"]["system_info"]`: the stored
documents in insertion order and the next `_id` the store will assign
(ObjectIds are modelled as naturals). -/
structure Collection where
  docs : List SystemInfo
  nextId : Nat
deriving DecidableEq

/-- Embedding of `collection.insert_one(doc)`: pymongo assigns an `_id` and adds it to the
passed dict in place; the mutated document is appended to the collection.
Returns the mutated document and the new collection state. -/
def insert_one (c : Collection) (doc : SystemInfo) : SystemInfo × Collection :=
  let doc2 := { doc with mongoId := some c.nextId }
  (doc2, ⟨c.docs ++ [doc2], c.nextId + 1⟩)

/-- The projection `{"_id": 0}` used by `collection.find` in `fetch_data`:
the document without its `_id` field. -/
def stripId (doc : SystemInfo) : SystemInfo := { doc with mongoId := none }

/-- The JSON body `jsonify` would build for `/scan`, were the payload
serializable. -/
structure ScanResponse where
  status : String
  data : SystemInfo
deriving DecidableEq

/-- The JSON body produced by `fetch_data`. -/
structure FetchResponse where
  status : String
  data : List SystemInfo
deriving DecidableEq

/-- A Python exception raised inside the Flask service: the `TypeError` that
`flask.jsonify` raises on a value its JSON encoder cannot serialize. -/
inductive FlaskError where
  | typeError (msg : String)
deriving DecidableEq

/-- Embedding of `flask.jsonify({"status": ..., "data": system_info})` as
called by the `/scan` handler: Flask's JSON encoder has no encoding for a
bson `ObjectId`, so when the dict carries the `_id` an insertion added in
place, serialization raises `TypeError("Object of type ObjectId is not JSON
serializable")`; only an `ObjectId`-free dict yields the response body. -/
def jsonify_scan (status : String) (data : SystemInfo) :
    Except FlaskError ScanResponse :=
  match data.mongoId with
  | some _ =>
    Except.error (FlaskError.typeError "Object of type ObjectId is not JSON serializable")
  | none => Except.ok { status := status, data := data }

/-- Embedding of the `/scan` handler `scan_system` (src/app.py, lines 31-35):
compute the snapshot, insert it (pymongo adds the ObjectId `_id` to the dict
in place), then attempt `jsonify({"status": "success", "data": system_info})`
on the mutated dict.  The insertion has already happened when `jsonify`
raises. -/
def scan_system (env : SysEnv) (c : Collection) :
    Except FlaskError ScanResponse × Collection :=
  let system_info := get_system_info env
  let res := insert_one c system_info
  (jsonify_scan "success" res.1, res.2)

/-- Embedding of the `/fetch` handler `fetch_data` (src/app.py, lines 37-40):
`list(collection.find({}, {"_id": 0}))` in a success response. -/
def fetch_data (c : Collection) : FetchResponse :=
  { status := "success", data := c.docs.map stripId }

end HostMetrics

namespace PetSphere

/-- Updating a key and reading it back yields the written value. -/
theorem lookupKV_setKV_self {α : Type} (l : List (String × α)) (k : String) (v : α) :
    lookupKV (setKV l k v) k = some v := by
  induction l with
  | nil => simp [setKV, lookupKV]
  | cons hd tl ih =>
    obtain ⟨k0, v0⟩ := hd
    by_cases h : k0 == k
    · simp [setKV, lookupKV, h]
    · simp [setKV, lookupKV, h, ih]

/-- Counter read after an update at the same key. -/
theorem getKV_setKV_self (l : List (String × Nat)) (k : String) (v : Nat) :
    getKV (setKV l k v) k = v := by
  simp [getKV, lookupKV_setKV_self]

/-- Writing the same value at the same key twice is the same as writing it
once. -/
theorem setKV_setKV_self {α : Type} (l : List (String × α)) (k : String) (v : α) :
    setKV (setKV l k v) k v = setKV l k v := by
  induction l with
  | nil => simp [setKV]
  | cons hd tl ih =>
    obtain ⟨k0, v0⟩ := hd
    by_cases h : k0 == k
    · simp [setKV, h]
    · simp [setKV, h, ih]

/-- The rate-limit counter after one call. -/
theorem check_rate_limit_store (s : Settings) (uid now : Nat) (r : Redis) :
    getKV (check_rate_limit s uid now r).2.store (rateKey uid now)
      = getKV r.store (rateKey uid now) + 1 := by
  simp [check_rate_limit, getKV_setKV_self]

/-- Closed form of the number of permitted requests among `N` requests in
one bucket, as a function of the counter's starting value. -/
theorem runRequests_eq (s : Settings) (uid now : Nat) :
    ∀ (N : Nat) (r : Redis),
      runRequests s uid now N r
        = min N (s.RATE_LIMIT_PER_MINUTE - getKV r.store (rateKey uid now)) := by
  intro N
  induction N with
  | zero => intro r; simp [runRequests]
  | succ n ih =>
    intro r
    have hkey := check_rate_limit_store s uid now r
    simp only [runRequests]
    rw [ih, hkey]
    have hfst : (check_rate_limit s uid now r).1
        = decide (getKV r.store (rateKey uid now) + 1 ≤ s.RATE_LIMIT_PER_MINUTE) := rfl
    rw [hfst]
    by_cases h : getKV r.store (rateKey uid now) + 1 ≤ s.RATE_LIMIT_PER_MINUTE
    · rw [decide_eq_true h]
      simp
      omega
    · rw [decide_eq_false h]
      simp
      omega

/-- C2: `check_rate_limit` increments the counter keyed by the user and the
current 60-second bucket, sets that counter's expiry to 90 seconds on every
call, and returns true iff the post-increment count is at most
`RATE_LIMIT_PER_MINUTE`; consequently a user issuing `N` requests within one
bucket has exactly `min N RATE_LIMIT_PER_MINUTE` of them permitted and the
rest denied. -/
theorem check_rate_limit_spec (s : Settings) (user_id now : Nat) (r : Redis) :
    getKV (check_rate_limit s user_id now r).2.store (rateKey user_id now)
      = getKV r.store (rateKey user_id now) + 1
    ∧ lookupKV (check_rate_limit s user_id now r).2.ttl (rateKey user_id now) = some 90
    ∧ (check_rate_limit s user_id now r).1
      = decide (getKV r.store (rateKey user_id now) + 1 ≤ s.RATE_LIMIT_PER_MINUTE)
    ∧ ∀ N : Nat, runRequests s user_id now N ⟨[], []⟩ = min N s.RATE_LIMIT_PER_MINUTE := by
  refine ⟨check_rate_limit_store s user_id now r, ?_, rfl, ?_⟩
  · simp [check_rate_limit, lookupKV_setKV_self]
  · intro N
    have h := runRequests_eq s user_id now N ⟨[], []⟩
    simpa [getKV, lookupKV] using h

/-- The `try` body on a failed verification: the exception propagates, no
lookup happens. -/
theorem get_current_user_body_error_eq (e : Exc) (db : List User)
    (s : Settings) (now : Nat) (r : Redis) :
    get_current_user_body (Except.error e) db s now r = (Except.error e, r, []) := rfl

/-- The `try` body on a verified token: the remaining lookup/rate-limit
cascade. -/
theorem get_current_user_body_sub_eq (sub : Nat) (db : List User)
    (s : Settings) (now : Nat) (r : Redis) :
    get_current_user_body (Except.ok sub) db s now r =
      match List.find? (fun x => x.id == sub) db with
      | none =>
        (Except.error (Exc.httpException 404 "User not found"), r, [AuthEv.dbLookup])
      | some user =>
        if (check_rate_limit s user.id now r).1 then
          (Except.ok user, (check_rate_limit s user.id now r).2,
            [AuthEv.dbLookup, AuthEv.rateCheck])
        else
          (Except.error (Exc.httpException 429 "Rate limit exceeded"),
            (check_rate_limit s user.id now r).2,
            [AuthEv.dbLookup, AuthEv.rateCheck]) := rfl

/-- The `try` body once the token verified and the user was found. -/
theorem get_current_user_body_found_eq (sub : Nat) (u : User) (db : List User)
    (s : Settings) (now : Nat) (r : Redis)
    (hfind : List.find? (fun x => x.id == sub) db = some u) :
    get_current_user_body (Except.ok sub) db s now r =
      if (check_rate_limit s u.id now r).1 then
        (Except.ok u, (check_rate_limit s u.id now r).2,
          [AuthEv.dbLookup, AuthEv.rateCheck])
      else
        (Except.error (Exc.httpException 429 "Rate limit exceeded"),
          (check_rate_limit s u.id now r).2,
          [AuthEv.dbLookup, AuthEv.rateCheck]) := by
  rw [get_current_user_body_sub_eq, hfind]

/-- The `except` wrapper of `get_current_user`, as a function of the body's
outcome. -/
theorem get_current_user_eq (verify : Except Exc Nat) (db : List User)
    (s : Settings) (now : Nat) (r : Redis) :
    get_current_user verify db s now r =
      match (get_current_user_body verify db s now r).1 with
      | Except.ok u => (Except.ok u, (get_current_user_body verify db s now r).2)
      | Except.error e =>
        (Except.error (Exc.httpException 401 (excStr e)),
          (get_current_user_body verify db s now r).2) := by
  unfold get_current_user
  rcases get_current_user_body verify db s now r with ⟨res, r2, evs⟩
  cases res <;> rfl

/-- Decomposition of a successful run of the `try` body of
`get_current_user`: success means the token verified, the user was found and
the rate limit passed. -/
theorem get_current_user_body_ok (verify : Except Exc Nat) (db : List User)
    (s : Settings) (now : Nat) (r : Redis) (u : User)
    (h : (get_current_user_body verify db s now r).1 = Except.ok u) :
    ∃ sub, verify = Except.ok sub ∧
      List.find? (fun x => x.id == sub) db = some u ∧
      (check_rate_limit s u.id now r).1 = true := by
  cases verify with
  | error e => exact absurd h (by simp [get_current_user_body_error_eq])
  | ok sub =>
    refine ⟨sub, rfl, ?_⟩
    rw [get_current_user_body_sub_eq] at h
    split at h
    · simp at h
    · rename_i user hfind
      by_cases hrate : (check_rate_limit s user.id now r).1 = true
      · rw [if_pos hrate] at h
        simp only [Except.ok.injEq] at h
        subst h
        exact ⟨hfind, hrate⟩
      · rw [if_neg hrate] at h
        simp at h

/-- C1: in `get_current_user`, any exception raised during token
verification, user lookup (404 for an absent user) or rate-limit checking
(429 for an exceeded limit) is caught and re-signaled as a single 401
Unauthorized failure whose detail is the original exception's message
(`str(e)`); the user record is returned only when all three steps succeed. -/
theorem get_current_user_collapses_to_unauthorized
    (verify : Except Exc Nat) (db : List User) (s : Settings) (now : Nat) (r : Redis) :
    (∀ e, (get_current_user verify db s now r).1 = Except.error e →
      ∃ e0, (get_current_user_body verify db s now r).1 = Except.error e0 ∧
        e = Exc.httpException 401 (excStr e0))
    ∧ (∀ u, (get_current_user verify db s now r).1 = Except.ok u →
      ∃ sub, verify = Except.ok sub ∧
        List.find? (fun x => x.id == sub) db = some u ∧
        (check_rate_limit s u.id now r).1 = true)
    ∧ (∀ sub, verify = Except.ok sub →
      List.find? (fun x => x.id == sub) db = none →
      (get_current_user verify db s now r).1 =
        Except.error (Exc.httpException 401 "404: User not found"))
    ∧ (∀ sub u, verify = Except.ok sub →
      List.find? (fun x => x.id == sub) db = some u →
      (check_rate_limit s u.id now r).1 = false →
      (get_current_user verify db s now r).1 =
        Except.error (Exc.httpException 401 "429: Rate limit exceeded")) := by
  refine ⟨?_, ?_, ?_, ?_⟩
  · intro e1 h
    rw [get_current_user_eq] at h
    cases hres : (get_current_user_body verify db s now r).1 with
    | ok u =>
      rw [hres] at h
      simp at h
    | error e0 =>
      rw [hres] at h
      simp only [Except.error.injEq] at h
      exact ⟨e0, rfl, h.symm⟩
  · intro u h
    rw [get_current_user_eq] at h
    cases hres : (get_current_user_body verify db s now r).1 with
    | error e0 =>
      rw [hres] at h
      simp at h
    | ok u0 =>
      rw [hres] at h
      simp only [Except.ok.injEq] at h
      subst h
      exact get_current_user_body_ok verify db s now r u0 hres
  · intro sub h1 h2
    subst h1
    rw [get_current_user_eq, get_current_user_body_sub_eq, h2]
    rfl
  · intro sub u h1 h2 h3
    subst h1
    rw [get_current_user_eq, get_current_user_body_found_eq sub u db s now r h2, h3]
    rfl

/-- C7: a token whose verification fails — malformed or well-formed but
expired — is rejected at the boundary identically (an HTTPException of the
same 401 kind in both cases), with no user lookup attempted before the
rejection (the step trace is empty) and the Redis state untouched.
`verify_token` is modelled from the spec since app/core/security.py is not
under src/. -/
theorem failed_verification_rejected_uniformly (m1 m2 : String)
    (db : List User) (s : Settings) (now : Nat) (r : Redis) :
    get_current_user (verify_token (Token.malformed m1)) db s now r
      = (Except.error (Exc.httpException 401 m1), r, [])
    ∧ get_current_user (verify_token (Token.expired m2)) db s now r
      = (Except.error (Exc.httpException 401 m2), r, []) :=
  ⟨rfl, rfl⟩

/-- The wrapper of `create_pet`, as a function of the body's outcome. -/
theorem create_pet_eq (s : Settings) (pet : PetCreate) (photo : Option UploadFile)
    (crud : PetCreate → Nat → Except Exc PetResponse) (user : User)
    (st : List (String × List Nat)) :
    create_pet s pet photo crud user st =
      match (create_pet_body s pet photo crud user st).1 with
      | Except.ok resp => (Except.ok resp, (create_pet_body s pet photo crud user st).2)
      | Except.error _ =>
        (Except.error (Exc.httpException 500 "Could not create pet"),
          (create_pet_body s pet photo crud user st).2) := by
  unfold create_pet
  rcases create_pet_body s pet photo crud user st with ⟨res, st2⟩
  cases res <;> rfl

/-- The `try` body of `create_pet` when a photo is present: the validation
cascade. -/
theorem create_pet_body_some_eq (s : Settings) (pet : PetCreate) (ph : UploadFile)
    (crud : PetCreate → Nat → Except Exc PetResponse) (user : User)
    (st : List (String × List Nat)) :
    create_pet_body s pet (some ph) crud user st =
      match (validate_file s ph).1 with
      | Except.error e => (Except.error e, st)
      | Except.ok content =>
        (crud { pet with
            photo_url := some ("/static/pets/" ++ secure_filename content ph.filename) }
          user.id,
         setKV st ("uploads/pets/" ++ secure_filename content ph.filename) content) := rfl

/-- C3: `validate_file` rejects a declared content type outside
`ALLOWED_FILE_TYPES` before any content is read or any size check is
performed (empty trace); for an allowed type it rejects exactly when the
content length exceeds `MAX_UPLOAD_SIZE` (after the read and the size
check); otherwise it returns the content with the stream position reset to
the start; and when validation fails, `create_pet` writes nothing to
storage. -/
theorem validate_file_spec (s : Settings) (file : UploadFile) :
    (file.content_type ∉ s.ALLOWED_FILE_TYPES →
      validate_file s file = (Except.error (Exc.httpException 400
        ("File type not allowed. Allowed types: " ++ pyStrList s.ALLOWED_FILE_TYPES)), []))
    ∧ (file.content_type ∈ s.ALLOWED_FILE_TYPES → file.data.length > s.MAX_UPLOAD_SIZE →
      validate_file s file = (Except.error (Exc.httpException 400
        ("File size exceeds maximum allowed size of " ++
          toString s.MAX_UPLOAD_SIZE ++ " bytes")),
        [FileEv.read, FileEv.sizeCheck]))
    ∧ (file.content_type ∈ s.ALLOWED_FILE_TYPES → file.data.length ≤ s.MAX_UPLOAD_SIZE →
      validate_file s file
        = (Except.ok file.data, [FileEv.read, FileEv.sizeCheck, FileEv.seek 0]))
    ∧ (∀ (pet : PetCreate) (crud : PetCreate → Nat → Except Exc PetResponse)
        (user : User) (st : List (String × List Nat)) (e0 : Exc),
        (validate_file s file).1 = Except.error e0 →
        (create_pet s pet (some file) crud user st).2 = st) := by
  refine ⟨?_, ?_, ?_, ?_⟩
  · intro h
    unfold validate_file
    rw [if_pos h]
  · intro h1 h2
    unfold validate_file
    rw [if_neg (not_not_intro h1), if_pos h2]
  · intro h1 h2
    unfold validate_file
    rw [if_neg (not_not_intro h1), if_neg (by omega)]
  · intro pet crud user st e0 hval
    have hbody : create_pet_body s pet (some file) crud user st
        = (Except.error e0, st) := by
      rw [create_pet_body_some_eq, hval]
    rw [create_pet_eq, hbody]

/-- Witness for C3: each branch exercised at a concrete file — a disallowed
type, an allowed type over the size limit, an allowed small file, and the
unchanged storage after a failed validation. -/
theorem validate_file_spec_witness :
    validate_file settings ⟨"a.txt", "text/plain", [1, 2]⟩
      = (Except.error (Exc.httpException 400
          ("File type not allowed. Allowed types: " ++ pyStrList settings.ALLOWED_FILE_TYPES)), [])
    ∧ validate_file settings ⟨"a.png", "image/png", List.replicate 5242881 0⟩
      = (Except.error (Exc.httpException 400
          ("File size exceeds maximum allowed size of " ++
            toString settings.MAX_UPLOAD_SIZE ++ " bytes")),
        [FileEv.read, FileEv.sizeCheck])
    ∧ validate_file settings ⟨"a.png", "image/png", [7]⟩
      = (Except.ok [7], [FileEv.read, FileEv.sizeCheck, FileEv.seek 0])
    ∧ (create_pet settings ⟨"Rex", none⟩ (some ⟨"a.txt", "text/plain", [1, 2]⟩)
        (fun p uid => Except.ok ⟨p.name, p.photo_url, uid⟩) ⟨1⟩ []).2 = [] := by
  refine ⟨?_, ?_, ?_, ?_⟩
  · exact (validate_file_spec settings ⟨"a.txt", "text/plain", [1, 2]⟩).1 (by decide)
  · exact (validate_file_spec settings ⟨"a.png", "image/png", List.replicate 5242881 0⟩).2.1
      (by decide)
      (by show (List.replicate 5242881 (0 : Nat)).length > 5242880
          rw [List.length_replicate]
          omega)
  · exact (validate_file_spec settings ⟨"a.png", "image/png", [7]⟩).2.2.1 (by decide) (by decide)
  · exact (validate_file_spec settings ⟨"a.txt", "text/plain", [1, 2]⟩).2.2.2
      ⟨"Rex", none⟩ (fun p uid => Except.ok ⟨p.name, p.photo_url, uid⟩) ⟨1⟩ []
      (Exc.httpException 400
        ("File type not allowed. Allowed types: " ++ pyStrList settings.ALLOWED_FILE_TYPES))
      (by rfl)

/-- C5: any exception raised inside the `create_pet` handler body — in
particular the upload validator's unsupported-type and too-large failures —
is caught and surfaced as a single 500 InternalError with the fixed detail
"Could not create pet", so validation failures never reach the client with
their own status code or message. -/
theorem create_pet_errors_collapse_to_500 (s : Settings) (pet : PetCreate)
    (photo : Option UploadFile) (crud : PetCreate → Nat → Except Exc PetResponse)
    (user : User) (st : List (String × List Nat)) :
    (∀ e st2, create_pet s pet photo crud user st = (Except.error e, st2) →
      e = Exc.httpException 500 "Could not create pet")
    ∧ (∀ ph e0, photo = some ph → (validate_file s ph).1 = Except.error e0 →
      create_pet s pet photo crud user st
        = (Except.error (Exc.httpException 500 "Could not create pet"), st)) := by
  constructor
  · intro e st2 h
    rw [create_pet_eq] at h
    cases hres : (create_pet_body s pet photo crud user st).1 with
    | ok resp =>
      rw [hres] at h
      simp at h
    | error e0 =>
      rw [hres] at h
      simp only [Prod.mk.injEq, Except.error.injEq] at h
      exact h.1.symm
  · intro ph e0 hphoto hval
    subst hphoto
    have hbody : create_pet_body s pet (some ph) crud user st
        = (Except.error e0, st) := by
      rw [create_pet_body_some_eq, hval]
    rw [create_pet_eq, hbody]

/-- Witness for C5: a disallowed upload at concrete inputs yields exactly the
fixed 500 response and leaves storage unchanged. -/
theorem create_pet_errors_collapse_witness :
    create_pet settings ⟨"Rex", none⟩ (some ⟨"a.txt", "text/plain", [1, 2]⟩)
      (fun p uid => Except.ok ⟨p.name, p.photo_url, uid⟩) ⟨1⟩ []
      = (Except.error (Exc.httpException 500 "Could not create pet"), [])
    ∧ Exc.httpException 500 "Could not create pet"
      = Exc.httpException 500 "Could not create pet" := by
  constructor
  · exact (create_pet_errors_collapse_to_500 settings ⟨"Rex", none⟩
      (some ⟨"a.txt", "text/plain", [1, 2]⟩)
      (fun p uid => Except.ok ⟨p.name, p.photo_url, uid⟩) ⟨1⟩ []).2
      ⟨"a.txt", "text/plain", [1, 2]⟩
      (Exc.httpException 400
        ("File type not allowed. Allowed types: " ++ pyStrList settings.ALLOWED_FILE_TYPES))
      rfl (by rfl)
  · exact ((create_pet_errors_collapse_to_500 settings ⟨"Rex", none⟩
      (some ⟨"a.txt", "text/plain", [1, 2]⟩)
      (fun p uid => Except.ok ⟨p.name, p.photo_url, uid⟩) ⟨1⟩ []).1
      (Exc.httpException 500 "Could not create pet") [] (by rfl)).symm

/-- C6: the `get_db` unit of work commits when the enclosed work completes
without exception, rolls back and re-raises the same exception otherwise,
and closes the session exactly once on every exit path. -/
theorem get_db_spec (work : Except Exc Unit) :
    (work = Except.ok () →
      get_db work = (Except.ok (), [DBAction.commit, DBAction.close]))
    ∧ (∀ e, work = Except.error e →
      get_db work = (Except.error e, [DBAction.rollback, DBAction.close]))
    ∧ (get_db work).2.count DBAction.close = 1
    ∧ (DBAction.commit ∈ (get_db work).2 ↔ work = Except.ok ())
    ∧ (DBAction.rollback ∈ (get_db work).2 ↔ ∃ e, work = Except.error e) := by
  cases work with
  | ok u =>
    cases u
    refine ⟨fun _ => rfl, ?_, rfl, ?_, ?_⟩
    · intro e h
      exact absurd h (by simp)
    · simp [get_db]
    · simp [get_db]
  | error e =>
    refine ⟨?_, ?_, rfl, ?_, ?_⟩
    · intro h
      exact absurd h (by simp)
    · intro e1 h
      rw [← h]
      rfl
    · simp [get_db]
    · simp only [get_db]
      constructor
      · intro _
        exact ⟨e, rfl⟩
      · intro _
        simp

/-- Witness for C6: both exit paths at concrete outcomes. -/
theorem get_db_spec_witness :
    get_db (Except.ok ()) = (Except.ok (), [DBAction.commit, DBAction.close])
    ∧ get_db (Except.error (Exc.other "db down"))
      = (Except.error (Exc.other "db down"), [DBAction.rollback, DBAction.close]) :=
  ⟨(get_db_spec (Except.ok ())).1 rfl,
   (get_db_spec (Except.error (Exc.other "db down"))).2.1 (Exc.other "db down") rfl⟩

/-- Witness for C1: the 404 branch and the generic-exception branch, both
collapsed to 401, and a fully successful resolution, at concrete inputs. -/
theorem get_current_user_collapses_witness :
    (∃ e0, (get_current_user_body (Except.error (Exc.other "boom")) [] settings 0
        ⟨[], []⟩).1 = Except.error e0
      ∧ Exc.httpException 401 "boom" = Exc.httpException 401 (excStr e0))
    ∧ (get_current_user (Except.ok 5) [] settings 0 ⟨[], []⟩).1
      = Except.error (Exc.httpException 401 "404: User not found")
    ∧ (∃ sub, (Except.ok 1 : Except Exc Nat) = Except.ok sub
      ∧ List.find? (fun x => x.id == sub) [(⟨1⟩ : User)] = some ⟨1⟩
      ∧ (check_rate_limit settings (1 : Nat) 0 ⟨[], []⟩).1 = true) := by
  refine ⟨?_, ?_, ?_⟩
  · exact (get_current_user_collapses_to_unauthorized
      (Except.error (Exc.other "boom")) [] settings 0 ⟨[], []⟩).1
      (Exc.httpException 401 "boom") rfl
  · exact (get_current_user_collapses_to_unauthorized
      (Except.ok 5) [] settings 0 ⟨[], []⟩).2.2.1 5 rfl rfl
  · have h := (get_current_user_collapses_to_unauthorized
      (Except.ok 1) [⟨1⟩] settings 0 ⟨[], []⟩).2.1 ⟨1⟩ rfl
    simpa using h

end PetSphere



namespace PetSphere

/-- C4 counterexample: two uploads with identical content bytes but distinct
original filenames are stored under distinct filenames, because the derived
filename appends the original filename's extension to the digest — it is not
a function of the content bytes alone. -/
theorem secure_filename_not_content_only :
    secure_filename [0] "a.png" ≠ secure_filename [0] "a.jpg" := by
  unfold secure_filename
  have h1 : (splitext "a.png").2 = ".png" := by decide
  have h2 : (splitext "a.jpg").2 = ".jpg" := by decide
  rw [h1, h2]
  intro h
  have hd := congrArg String.data h
  rw [String.data_append, String.data_append] at hd
  have hext := List.append_cancel_left hd
  exact absurd hext (by decide)

/-- C4 (amended): the storage filename is a deterministic pure function of
the content bytes and the original filename's extension; identical content
with the same extension always yields the identical filename, re-storing the
same payload at the same path is an idempotent no-op on storage, and
contents with distinct digests yield distinct filenames when the extensions
agree (digest collision-resistance supplies distinct digests for distinct
content). -/
theorem secure_filename_content_addressed (c1 c2 : List Nat) (f1 f2 : String)
    (st : List (String × List Nat)) :
    (c1 = c2 → (splitext f1).2 = (splitext f2).2 →
      secure_filename c1 f1 = secure_filename c2 f2)
    ∧ (sha256hex c1 ≠ sha256hex c2 → (splitext f1).2 = (splitext f2).2 →
      secure_filename c1 f1 ≠ secure_filename c2 f2)
    ∧ setKV (setKV st ("uploads/pets/" ++ secure_filename c1 f1) c1)
        ("uploads/pets/" ++ secure_filename c1 f1) c1
      = setKV st ("uploads/pets/" ++ secure_filename c1 f1) c1 := by
  refine ⟨?_, ?_, setKV_setKV_self st _ c1⟩
  · intro hc hext
    subst hc
    unfold secure_filename
    rw [hext]
  · intro hne hext heq
    apply hne
    unfold secure_filename at heq
    rw [hext] at heq
    have hd := congrArg String.data heq
    rw [String.data_append, String.data_append] at hd
    exact String.ext (List.append_cancel_right hd)

set_option maxRecDepth 10000 in
/-- Witness for the amended C4: concrete contents with distinct digests and
a shared extension map to distinct filenames; identical content maps to the
identical filename; the duplicate store write is a no-op. -/
theorem secure_filename_content_addressed_witness :
    secure_filename [] "a.png" ≠ secure_filename [0] "a.png"
    ∧ secure_filename [0] "a.png" = secure_filename [0] "b.png"
    ∧ setKV (setKV [] ("uploads/pets/" ++ secure_filename [0] "a.png") [0])
        ("uploads/pets/" ++ secure_filename [0] "a.png") [0]
      = setKV [] ("uploads/pets/" ++ secure_filename [0] "a.png") [0] := by
  have hne : sha256hex [] ≠ sha256hex [0] := by decide
  refine ⟨(secure_filename_content_addressed [] [0] "a.png" "a.png" []).2.1 hne (by decide),
    (secure_filename_content_addressed [0] [0] "a.png" "b.png" []).1 rfl (by decide),
    (secure_filename_content_addressed [0] [0] "a.png" "b.png" []).2.2⟩

end PetSphere

namespace HostMetrics

/-- Round-half-even of a nonnegative rational is nonnegative. -/
theorem roundHalfEven_nonneg {q : ℚ} (hq : 0 ≤ q) : 0 ≤ roundHalfEven q := by
  have hf : (0 : ℤ) ≤ ⌊q⌋ := Int.floor_nonneg.mpr hq
  unfold roundHalfEven
  split_ifs <;> omega

/-- Rounding a nonnegative value to two decimal places stays nonnegative. -/
theorem pyRound2_nonneg {q : ℚ} (hq : 0 ≤ q) : 0 ≤ pyRound2 q := by
  unfold pyRound2
  have h := roundHalfEven_nonneg (q := q * 100) (by positivity)
  have h2 : (0 : ℚ) ≤ (roundHalfEven (q * 100) : ℚ) := by exact_mod_cast h
  exact div_nonneg h2 (by norm_num)

/-- A value rounded to two decimal places times 100 is an integer. -/
theorem pyRound2_mul_100 (q : ℚ) : pyRound2 q * 100 = (roundHalfEven (q * 100) : ℚ) := by
  unfold pyRound2
  exact div_mul_cancel₀ _ (by norm_num)

/-- C8 (code bug): every `scan` call computes a snapshot with `memory_total`
and `disk_total` equal to the probed byte totals divided by 1024³ rounded
to two decimal places, and appends it to the document collection — but the
claimed success response is never returned: the insertion has put a bson
ObjectId into the dict, `jsonify` raises `TypeError` on it, and the route
fails instead of answering with the snapshot. -/
theorem scan_computes_and_appends_but_never_succeeds (env : SysEnv) (c : Collection) :
    (get_system_info env).memory_total = pyRound2 ((env.memory_bytes : ℚ) / 1024 ^ 3)
    ∧ (get_system_info env).disk_total = pyRound2 ((env.disk_bytes : ℚ) / 1024 ^ 3)
    ∧ (scan_system env c).2.docs = c.docs ++ [(insert_one c (get_system_info env)).1]
    ∧ (scan_system env c).1
      = Except.error (FlaskError.typeError "Object of type ObjectId is not JSON serializable") :=
  ⟨rfl, rfl, rfl, rfl⟩

/-- C9: `fetch` returns all stored snapshots with the internal identifier
omitted from each; a `scan` followed immediately by a `fetch` returns a list
containing the just-recorded snapshot, in which `cpu_cores ≤ cpu_threads`
(given that the probed physical core count is at most the logical thread
count) and both totals are nonnegative and rounded to two decimals. -/
theorem fetch_omits_id_scan_fetch_roundtrip (env : SysEnv) (c : Collection) :
    fetch_data c = { status := "success", data := c.docs.map stripId }
    ∧ (env.cpu_cores ≤ env.cpu_threads →
      stripId (insert_one c (get_system_info env)).1
        ∈ (fetch_data (scan_system env c).2).data
      ∧ (insert_one c (get_system_info env)).1.cpu_cores
        ≤ (insert_one c (get_system_info env)).1.cpu_threads
      ∧ 0 ≤ (insert_one c (get_system_info env)).1.memory_total
      ∧ 0 ≤ (insert_one c (get_system_info env)).1.disk_total
      ∧ (∃ n : ℤ, (insert_one c (get_system_info env)).1.memory_total * 100 = (n : ℚ))
      ∧ (∃ n : ℤ, (insert_one c (get_system_info env)).1.disk_total * 100 = (n : ℚ))) := by
  refine ⟨rfl, fun h => ⟨?_, h, ?_, ?_, ?_, ?_⟩⟩
  · show stripId (insert_one c (get_system_info env)).1
      ∈ (c.docs ++ [(insert_one c (get_system_info env)).1]).map stripId
    exact List.mem_map_of_mem _ (List.mem_append_right _ (by simp))
  · exact pyRound2_nonneg (by positivity)
  · exact pyRound2_nonneg (by positivity)
  · exact ⟨_, pyRound2_mul_100 _⟩
  · exact ⟨_, pyRound2_mul_100 _⟩

/-- Witness for C9: a concrete host environment with 2 physical cores, 4
threads, 1 GiB of memory and 2 GiB of disk. -/
theorem fetch_omits_id_witness :
    fetch_data ⟨[], 0⟩ = { status := "success", data := [] }
    ∧ (insert_one ⟨[], 0⟩ (get_system_info
        ⟨"h", "linux", "1.0", "x86", 2, 4, 1073741824, 2147483648⟩)).1.cpu_cores
      ≤ (insert_one ⟨[], 0⟩ (get_system_info
        ⟨"h", "linux", "1.0", "x86", 2, 4, 1073741824, 2147483648⟩)).1.cpu_threads
    ∧ 0 ≤ (insert_one ⟨[], 0⟩ (get_system_info
        ⟨"h", "linux", "1.0", "x86", 2, 4, 1073741824, 2147483648⟩)).1.memory_total := by
  have h := fetch_omits_id_scan_fetch_roundtrip
    ⟨"h", "linux", "1.0", "x86", 2, 4, 1073741824, 2147483648⟩ ⟨[], 0⟩
  have h2 := h.2 (by decide)
  exact ⟨h.1, h2.2.1, h2.2.2.1⟩

/-- C10 (code bug): the insertion does mutate the snapshot dict in place,
adding the store-assigned ObjectId before the response is built, and `fetch`
returns the stored record with exactly that field stripped — but the
post-insertion snapshot is never returned by `scan`: `jsonify` raises
`TypeError` on that very ObjectId field, so the claimed scan-side view of
the snapshot never reaches a client. -/
theorem scan_mutation_real_but_view_never_returned (env : SysEnv) (c : Collection) :
    (get_system_info env).mongoId = none
    ∧ (insert_one c (get_system_info env)).1.mongoId = some c.nextId
    ∧ (scan_system env c).2.docs.getLast? = some (insert_one c (get_system_info env)).1
    ∧ (scan_system env c).1
      = Except.error (FlaskError.typeError "Object of type ObjectId is not JSON serializable")
    ∧ (fetch_data (scan_system env c).2).data.getLast?
      = some (stripId (insert_one c (get_system_info env)).1)
    ∧ (stripId (insert_one c (get_system_info env)).1).mongoId = none := by
  refine ⟨rfl, rfl, ?_, rfl, ?_, rfl⟩
  · show (c.docs ++ [(insert_one c (get_system_info env)).1]).getLast?
      = some (insert_one c (get_system_info env)).1
    exact List.getLast?_concat _
  · show ((c.docs ++ [(insert_one c (get_system_info env)).1]).map stripId).getLast?
      = some (stripId (insert_one c (get_system_info env)).1)
    rw [List.map_append]
    exact List.getLast?_concat _

end HostMetrics
